import Mathlib

/-!
Shallow embedding of the maptechpy application (`src/main.py`) for
verification of its specification.

Modelling conventions:
* Python / PostgreSQL floating-point values are modelled by `ℚ`; the decimal
  literals appearing in the source and the seed data are exactly
  representable, and the claims under study concern control and filter logic,
  not floating-point rounding.
* Nullable database columns are modelled by `Option`.
* Surrogate primary keys assigned by the database are omitted where no claim
  depends on them.
* `int(...)` / `float(...)` string conversion is modelled by decimal parsers
  (`pyInt?`, `pyFloat?`) covering sign, digits and a fractional part; the
  exotic corners of Python's numeric grammar (underscores, exponents,
  `inf`/`nan`) are outside the inputs any claim mentions.
* A SQLAlchemy session is modelled by the list of committed rows; `commit`
  replaces the committed state, `rollback` discards pending work and returns
  to the last committed state.
-/

namespace Maptech

/-! ### Decimal parsing, mirroring Python `int(...)` and `float(...)` -/

def isPySpace (c : Char) : Bool :=
  c = ' ' || c = '\t' || c = '\n' || c = '\r' || c = '\x0b' || c = '\x0c'

/-- Python `str.strip()` on the character list. -/
def pyStrip (cs : List Char) : List Char :=
  ((cs.dropWhile isPySpace).reverse.dropWhile isPySpace).reverse

def stripStr (s : String) : String := String.mk (pyStrip s.toList)

def allDigits (cs : List Char) : Bool := cs.all Char.isDigit

def digitsVal (cs : List Char) : Nat :=
  cs.foldl (fun a c => a * 10 + (c.toNat - 48)) 0

/-- `int(s)`: optional surrounding whitespace, optional sign, digits. -/
def pyInt? (s : String) : Option Int :=
  match pyStrip s.toList with
  | [] => none
  | '+' :: rest => if allDigits rest ∧ rest ≠ [] then some (digitsVal rest : Int) else none
  | '-' :: rest => if allDigits rest ∧ rest ≠ [] then some (-(digitsVal rest : Int)) else none
  | cs => if allDigits cs then some (digitsVal cs : Int) else none

def fracValQ (cs : List Char) : ℚ := (digitsVal cs : ℚ) / ((10 : ℚ) ^ cs.length)

def pyFloatCore (cs : List Char) : Option ℚ :=
  match cs.span (fun c => c ≠ '.') with
  | (ip, []) => if allDigits ip ∧ ip ≠ [] then some ((digitsVal ip : ℚ)) else none
  | (ip, _ :: fp) =>
    if allDigits ip ∧ allDigits fp ∧ (ip ≠ [] ∨ fp ≠ []) then
      some ((digitsVal ip : ℚ) + fracValQ fp)
    else none

/-- `float(s)`: optional surrounding whitespace, optional sign, digits with an
optional fractional part. -/
def pyFloat? (s : String) : Option ℚ :=
  match pyStrip s.toList with
  | [] => none
  | '+' :: rest => pyFloatCore rest
  | '-' :: rest => (pyFloatCore rest).map Neg.neg
  | cs => pyFloatCore cs

/-! ### Case-insensitive substring matching, mirroring SQL `ILIKE '%v%'` -/

def listContainsAt (hay pat : List Char) (i : Nat) : Bool :=
  decide ((hay.drop i).take pat.length = pat)

def strContainsCI (hay pat : String) : Bool :=
  let h := hay.toList.map Char.toLower
  let p := pat.toList.map Char.toLower
  (List.range (h.length + 1)).any (fun i => listContainsAt h p i)

/-! ### Data model (`src/main.py`, SQLAlchemy declarative classes) -/

structure Customer where
  id : Int
  name : String
  address : String
  latitude : ℚ
  longitude : ℚ
  visit_status : Option String
  segment : Option String
deriving Repr, DecidableEq

structure MaptechUser where
  username : String
  password : String
  transport_method : Option String
  route_origin : Option String
  saved_search_conditions : Option String
  marker_cluster_max_zoom : Option Int
  zoom_setting : Option String
  origin_lng : Option ℚ
  origin_lat : Option ℚ
  nearby_distance_km : Option ℚ
  map_display_type_main : Option String
  map_display_type_adjust : Option String
  toll_usage : Option String
  visit_status : Option String
  past_visit_edit : Option String
deriving Repr, DecidableEq

structure OrgDefaultSetting where
  search_limit : Option Int
  nearby_distance_km : Option ℚ
  entry_exit_interval : Option String
  enable_area : Bool
  enable_group : Bool
deriving Repr, DecidableEq

/-! ### `_get_org_default_setting` (src/main.py lines 308-322)

The table is modelled by the list of its rows in insertion order;
`db.query(OrgDefaultSetting).first()` is the head of that list. -/

def defaultOrgSetting : OrgDefaultSetting :=
  { search_limit := some 10000
    nearby_distance_km := some 3
    entry_exit_interval := some "30分間隔"
    enable_area := false
    enable_group := false }

def get_org_default_setting (db : List OrgDefaultSetting) :
    OrgDefaultSetting × List OrgDefaultSetting :=
  match db with
  | s :: rest => (s, s :: rest)
  | [] => (defaultOrgSetting, [defaultOrgSetting])

/-! ### `POST /api/search/customers` (`search_customers`, src/main.py lines 766-790)

`allowed` maps each declared `Customer` column name to its SQLAlchemy type;
the query starts from all customers and successively applies filters. -/

inductive ColType where
  | intCol
  | floatCol
  | strCol
deriving Repr, DecidableEq

def customerColumns : List (String × ColType) :=
  [("id", .intCol), ("name", .strCol), ("address", .strCol),
   ("latitude", .floatCol), ("longitude", .floatCol),
   ("visit_status", .strCol), ("segment", .strCol)]

structure SearchFilter where
  field : String
  value : String
deriving Repr, DecidableEq

/-- The integer-typed column's value for a customer (`id` is the only one). -/
def customerIntField (c : Customer) (name : String) : Option Int :=
  if name = "id" then some c.id else none

/-- The float-typed column's value for a customer. -/
def customerFloatField (c : Customer) (name : String) : Option ℚ :=
  if name = "latitude" then some c.latitude
  else if name = "longitude" then some c.longitude
  else none

/-- The string-typed column's value for a customer; the outer `Option` is
column existence, the inner is SQL NULL. -/
def customerStrField (c : Customer) (name : String) : Option (Option String) :=
  if name = "name" then some (some c.name)
  else if name = "address" then some (some c.address)
  else if name = "visit_status" then some c.visit_status
  else if name = "segment" then some c.segment
  else none

/-- `col == num` on an integer column; a missing column never matches. -/
def intEqPred (name : String) (n : Int) (c : Customer) : Bool :=
  match customerIntField c name with
  | some v => decide (v = n)
  | none => false

def floatEqPred (name : String) (n : ℚ) (c : Customer) : Bool :=
  match customerFloatField c name with
  | some v => decide (v = n)
  | none => false

/-- `col.ilike(f"%{value}%")`: SQL NULL never matches. -/
def ilikePred (name value : String) (c : Customer) : Bool :=
  match customerStrField c name with
  | some (some s) => strContainsCI s value
  | _ => false

/-- One iteration of the filter loop: returns the narrowed query, or the query
unchanged when the pair is dropped (unknown field, empty value, or numeric
parse failure). -/
def applyFilter (q : List Customer) (f : SearchFilter) : List Customer :=
  match (customerColumns.lookup f.field) with
  | none => q
  | some ty =>
    if f.value = "" then q
    else
      match ty with
      | .intCol =>
        match pyInt? f.value with
        | none => q
        | some n => q.filter (intEqPred f.field n)
      | .floatCol =>
        match pyFloat? f.value with
        | none => q
        | some n => q.filter (floatEqPred f.field n)
      | .strCol => q.filter (ilikePred f.field f.value)

def search_customers (customers : List Customer) (filters : List SearchFilter) :
    List Customer :=
  filters.foldl applyFilter customers

/-- The specification's reading of one filter pair: `none` when the pair is
dropped (unknown field, empty value, or failed numeric parse), otherwise the
surviving predicate. -/
def survivingPred? (f : SearchFilter) : Option (Customer → Bool) :=
  match (customerColumns.lookup f.field) with
  | none => none
  | some ty =>
    if f.value = "" then none
    else
      match ty with
      | .intCol => (pyInt? f.value).map (fun n => intEqPred f.field n)
      | .floatCol => (pyFloat? f.value).map (fun n => floatEqPred f.field n)
      | .strCol => some (ilikePred f.field f.value)

/-- The specification's reading of the whole search: the customers satisfying
the conjunction of all surviving predicates. -/
def searchSpec (customers : List Customer) (filters : List SearchFilter) :
    List Customer :=
  customers.filter (fun c => (filters.filterMap survivingPred?).all (fun p => p c))

/-! ### `GET /api/markers/nearby` (`list_markers_nearby`, src/main.py lines 642-667)

`math.cos(math.radians(lat))` is transcendental; it enters the computation
only through its value, so the embedding takes that value (`cosLat`) as a
parameter alongside the centre point. -/

/-- `distance_km = user.nearby_distance_km or 5.0; if distance_km <= 0:
distance_km = 5.0` — Python `or` treats both `None` and `0.0` as falsy. -/
def effectiveRadius (pref : Option ℚ) : ℚ :=
  let d : ℚ :=
    match pref with
    | none => 5
    | some v => if v = 0 then 5 else v
  if d ≤ 0 then 5 else d

structure BoundingBox where
  min_lat : ℚ
  max_lat : ℚ
  min_lng : ℚ
  max_lng : ℚ
deriving Repr, DecidableEq

def nearbyBox (lat lng distance_km cosLat : ℚ) : BoundingBox :=
  let delta_lat := distance_km / 111
  let denom := 111 * max (1/10) |cosLat|
  let delta_lng := distance_km / denom
  { min_lat := lat - delta_lat
    max_lat := lat + delta_lat
    min_lng := lng - delta_lng
    max_lng := lng + delta_lng }

def inBox (b : BoundingBox) (c : Customer) : Bool :=
  decide (b.min_lat ≤ c.latitude) && decide (c.latitude ≤ b.max_lat) &&
  decide (b.min_lng ≤ c.longitude) && decide (c.longitude ≤ b.max_lng)

/-- The query after radius resolution: customers inside the box computed from
the given effective radius. -/
def nearbyCustomers (customers : List Customer) (lat lng distance_km cosLat : ℚ) :
    List Customer :=
  customers.filter (inBox (nearbyBox lat lng distance_km cosLat))

/-- The endpoint body: resolves the user's stored preference, then filters. -/
def list_markers_nearby (customers : List Customer) (lat lng : ℚ)
    (pref : Option ℚ) (cosLat : ℚ) : List Customer :=
  nearbyCustomers customers lat lng (effectiveRadius pref) cosLat

/-! ### `POST /AdminSettings` (`update_admin_settings`, src/main.py lines 407-457) -/

structure AdminSettingsForm where
  search_limit : Option String
  nearby_distance_km : Option String
  entry_exit_interval : String
  enable_area : Option String
  enable_group : Option String
deriving Repr, DecidableEq

inductive AdminPostResult where
  | redirectError (msg : String)
  | redirectSuccess
deriving Repr, DecidableEq

/-- `_parse_int`: `None`/empty pass through as `None`; a non-empty value that
fails `int(...)` yields the error message. -/
def parse_int_form (val : Option String) : Except String (Option Int) :=
  match val with
  | none => .ok none
  | some s =>
    if s = "" then .ok none
    else
      match pyInt? s with
      | some n => .ok (some n)
      | none => .error "検索件数上限は数値で入力してください"

def parse_float_form (val : Option String) : Except String (Option ℚ) :=
  match val with
  | none => .ok none
  | some s =>
    if s = "" then .ok none
    else
      match pyFloat? s with
      | some q => .ok (some q)
      | none => .error "周辺座標取得距離は数値で入力してください"

def allowed_intervals : List String := ["10分間隔", "15分間隔", "30分間隔"]

/-- `setting` is the row returned by `_get_org_default_setting`; mutating it
and committing replaces the head row of the table. -/
def replaceHead (db : List OrgDefaultSetting) (x : OrgDefaultSetting) :
    List OrgDefaultSetting :=
  match db with
  | [] => [x]
  | _ :: t => x :: t

def update_admin_settings (db : List OrgDefaultSetting) (form : AdminSettingsForm) :
    AdminPostResult × List OrgDefaultSetting :=
  let interval_to_use :=
    if form.entry_exit_interval ∈ allowed_intervals then form.entry_exit_interval
    else "15分間隔"
  match parse_int_form form.search_limit with
  | .error msg => (.redirectError msg, db)
  | .ok parsed_limit =>
    match parse_float_form form.nearby_distance_km with
    | .error msg => (.redirectError msg, db)
    | .ok parsed_distance =>
      let got := get_org_default_setting db
      let updated : OrgDefaultSetting :=
        { search_limit := parsed_limit
          nearby_distance_km := parsed_distance
          entry_exit_interval := some interval_to_use
          enable_area := form.enable_area.isSome
          enable_group := form.enable_group.isSome }
      (.redirectSuccess, replaceHead got.2 updated)

/-! ### `PUT /api/user/settings` (`update_user_settings`, src/main.py lines 847-864)

A pydantic `MaptechUserSettings` payload with `exclude_unset=True`: the outer
`Option` is presence in the payload, the inner is the submitted value (which
may itself be null). -/

structure MaptechUserSettingsPayload where
  transport_method : Option (Option String) := none
  route_origin : Option (Option String) := none
  map_display_type_main : Option (Option String) := none
  zoom_setting : Option (Option String) := none
  nearby_distance_km : Option (Option ℚ) := none
  marker_cluster_max_zoom : Option (Option Int) := none
  toll_usage : Option (Option String) := none
deriving Repr, DecidableEq

def update_user_settings (u : MaptechUser) (p : MaptechUserSettingsPayload) :
    MaptechUser :=
  { u with
    transport_method := p.transport_method.getD u.transport_method
    route_origin := p.route_origin.getD u.route_origin
    map_display_type_main := p.map_display_type_main.getD u.map_display_type_main
    zoom_setting := p.zoom_setting.getD u.zoom_setting
    nearby_distance_km := p.nearby_distance_km.getD u.nearby_distance_km
    marker_cluster_max_zoom := p.marker_cluster_max_zoom.getD u.marker_cluster_max_zoom
    toll_usage := p.toll_usage.getD u.toll_usage }

/-! ### Bulk replace endpoints (src/main.py lines 460-500 and 503-565)

Both endpoints run `delete(); commit()` and then build and insert the new
rows inside one `try`. The committed table state is tracked explicitly: the
first `commit` makes the empty table durable; a failure in the insert phase
triggers `db.rollback()`, which can only undo work since that commit. -/

inductive SaveOutcome (α : Type) where
  | ok (committed : List α)
  | failed (committed : List α)
deriving Repr, DecidableEq

/-- A row of the JSON payload for `POST /admin/marker-colors`
(pydantic `MarkerColorRow`; the optional `id` is never read back). -/
structure MarkerColorRow where
  priority : Option Int := none
  target : Option String := none
  field_name : Option String := none
  match_value : Option String := none
  match_condition : Option String := none
  color : Option String := none
  marker_style : Option String := none
deriving Repr, DecidableEq

/-- A stored `MarkerColorSetting` row as written by the bulk save (the
database-assigned primary key is omitted). -/
structure MarkerColorSettingRow where
  priority : Option Int
  target : Option String
  field_name : Option String
  match_value : Option String
  match_condition : Option String
  color : Option String
  marker_style : Option String
deriving Repr, DecidableEq

/-- `MarkerColorSetting(priority=r.priority or idx + 1, ...)` — Python `or`
treats both `None` and `0` as falsy, so either becomes `idx + 1`. -/
def buildMarkerRow (idx : Nat) (r : MarkerColorRow) : MarkerColorSettingRow :=
  { priority := some (match r.priority with
      | none => ((idx : Int) + 1)
      | some p => if p = 0 then ((idx : Int) + 1) else p)
    target := r.target
    field_name := r.field_name
    match_value := r.match_value
    match_condition := r.match_condition
    color := r.color
    marker_style := r.marker_style }

/-- `for idx, r in enumerate(parsed_rows)` with a running index. -/
def buildRowsFrom (idx : Nat) : List MarkerColorRow → List MarkerColorSettingRow
  | [] => []
  | r :: rest => buildMarkerRow idx r :: buildRowsFrom (idx + 1) rest

def markerInsertRows (rows : List MarkerColorRow) : List MarkerColorSettingRow :=
  buildRowsFrom 0 rows

/-- `save_marker_colors`: the `marker_color_setting` table carries no
constraints of its own, so a failure of the insert-phase commit is an
exogenous database error, modelled by the `insertFails` flag. Whatever the
pre-operation rows were, the delete has already been committed when it
strikes, so rollback returns to the empty table. -/
def save_marker_colors (initial : List MarkerColorSettingRow)
    (rows : List MarkerColorRow) (insertFails : Bool) :
    SaveOutcome MarkerColorSettingRow :=
  let afterDelete : List MarkerColorSettingRow := []
  if insertFails then .failed afterDelete
  else .ok (markerInsertRows rows)

/-- A row of the JSON payload for `POST /admin/users`; the admin grid submits
every cell as text, so values are modelled as optional strings fed to the
endpoint's `_to_int`/`_to_float` coercers. -/
structure MaptechUserRow where
  username : Option String := none
  password : Option String := none
  transport_method : Option String := none
  route_origin : Option String := none
  saved_search_conditions : Option String := none
  marker_cluster_max_zoom : Option String := none
  zoom_setting : Option String := none
  origin_lng : Option String := none
  origin_lat : Option String := none
  nearby_distance_km : Option String := none
  map_display_type_main : Option String := none
  map_display_type_adjust : Option String := none
  toll_usage : Option String := none
  visit_status : Option String := none
  past_visit_edit : Option String := none
deriving Repr, DecidableEq

/-- `_to_int`: `None`/`""`/`"null"` → `None`; otherwise `int(val)` with
failures swallowed to `None`. -/
def to_int_opt (val : Option String) : Option Int :=
  match val with
  | none => none
  | some s => if s = "" ∨ s = "null" then none else pyInt? s

def to_float_opt (val : Option String) : Option ℚ :=
  match val with
  | none => none
  | some s => if s = "" ∨ s = "null" then none else pyFloat? s

/-- One loop body of `save_maptech_users`: rows whose stripped username or
password is empty are skipped (`continue`). -/
def buildUser? (r : MaptechUserRow) : Option MaptechUser :=
  let username := stripStr (r.username.getD "")
  let password := stripStr (r.password.getD "")
  if username = "" ∨ password = "" then none
  else some
    { username := username
      password := password
      transport_method := r.transport_method
      route_origin := r.route_origin
      saved_search_conditions := r.saved_search_conditions
      marker_cluster_max_zoom := to_int_opt r.marker_cluster_max_zoom
      zoom_setting := r.zoom_setting
      origin_lng := to_float_opt r.origin_lng
      origin_lat := to_float_opt r.origin_lat
      nearby_distance_km := to_float_opt r.nearby_distance_km
      map_display_type_main := r.map_display_type_main
      map_display_type_adjust := r.map_display_type_adjust
      toll_usage := r.toll_usage
      visit_status := r.visit_status
      past_visit_edit := r.past_visit_edit }

/-- `save_maptech_users`: after the committed delete, the insert-phase commit
fails exactly when the batch violates the table's UNIQUE constraint on
`username` (the only constraint it can break); the `except` branch then rolls
back to the last committed state — the empty table. -/
def save_maptech_users (initial : List MaptechUser) (rows : List MaptechUserRow) :
    SaveOutcome MaptechUser :=
  let afterDelete : List MaptechUser := []
  let to_add := rows.filterMap buildUser?
  if decide ¬ (to_add.map (fun u => u.username)).Nodup then .failed afterDelete
  else .ok to_add

/-! ### Marker rule resolution

The ordering of rules is from `admin_settings_page` (src/main.py lines
354-358): `order_by(MarkerColorSetting.priority.nulls_last(),
MarkerColorSetting.id)`. -/

/-- A `MarkerColorSetting` row as read back for rule evaluation, primary key
included (it breaks priority ties). -/
structure MarkerRule where
  id : Nat
  priority : Option Int
  target : Option String
  field_name : Option String
  match_value : Option String
  match_condition : Option String
  color : Option String
  marker_style : Option String
deriving Repr, DecidableEq

inductive EntityKind where
  | customer
  | visit
deriving Repr, DecidableEq

/-- The `target` labels used throughout the seed data: 顧客情報 for customers
and 訪問予定 for visit schedules. -/
def kindLabel : EntityKind → String
  | .customer => "顧客情報"
  | .visit => "訪問予定"

/-- A record presented to the rule engine: its entity kind plus the string
representation of each of its named fields. -/
structure MarkerRecord where
  kind : EntityKind
  fields : List (String × String)
deriving Repr, DecidableEq

/-- Case-sensitive substring test (the matcher's "contains"). -/
def strContains (hay pat : String) : Bool :=
  let h := hay.toList
  let p := pat.toList
  (List.range (h.length + 1)).any (fun i => listContainsAt h p i)

/-- Modelled from the spec: the rule matcher (spec §4.1) runs in the map-page
templates, which are not part of `src/`. A rule whose declared field does not
exist on the record never matches; comparison mode follows the rule's
`match_condition` label (含む / 一致する / 含まない / 一致しない); an empty
`match_value` never matches; malformed or missing rule data degrades to
non-match. -/
def ruleMatches (r : MarkerRule) (x : MarkerRecord) : Bool :=
  match r.field_name, r.match_value, r.match_condition with
  | some fname, some mv, some cond =>
    if mv = "" then false
    else
      match x.fields.lookup fname with
      | none => false
      | some fv =>
        if cond = "含む" then strContains fv mv
        else if cond = "一致する" then decide (fv = mv)
        else if cond = "含まない" then !(strContains fv mv)
        else if cond = "一致しない" then !(decide (fv = mv))
        else false
  | _, _, _ => false

/-- Modelled from the spec: a rule is a candidate for a record when its
`target` names the record's entity kind (spec §4.2) and its condition
matches. -/
def ruleCandidate (r : MarkerRule) (x : MarkerRecord) : Bool :=
  decide (r.target = some (kindLabel x.kind)) && ruleMatches r x

/-- The rule order of `admin_settings_page`: ascending priority with nulls
last, ties broken by `id`. -/
def ruleLE (a b : MarkerRule) : Bool :=
  match a.priority, b.priority with
  | some p, some q => decide (p < q ∨ (p = q ∧ a.id ≤ b.id))
  | some _, none => true
  | none, some _ => false
  | none, none => decide (a.id ≤ b.id)

def sortedRules (R : List MarkerRule) : List MarkerRule :=
  R.mergeSort ruleLE

/-- Modelled from the spec: the resolution engine (spec §4.2) — first
matching candidate in rule order wins; its color and marker style are
applied; no match means no assignment. -/
def resolveMarker (R : List MarkerRule) (x : MarkerRecord) :
    Option (Option String × Option String) :=
  ((sortedRules R).find? (fun r => ruleCandidate r x)).map
    (fun r => (r.color, r.marker_style))

/-! ## Helper lemmas -/

theorem replaceHead_head? (db : List OrgDefaultSetting) (x : OrgDefaultSetting) :
    (replaceHead db x).head? = some x := by
  cases db <;> rfl

/-! ## Claims -/

/-- C6: whenever the organization-defaults resolver is invoked on a database
containing no `OrgDefaultSetting` row, it creates and persists exactly one row
with `search_limit = 10000`, `nearby_distance_km = 3.0`, the 30-minute
interval label, and both feature flags false, before returning it; a
subsequent invocation returns that same row without creating another, so at
most one row ever exists. -/
theorem org_defaults_get_or_create :
    get_org_default_setting [] = (defaultOrgSetting, [defaultOrgSetting]) ∧
    defaultOrgSetting.search_limit = some 10000 ∧
    defaultOrgSetting.nearby_distance_km = some 3 ∧
    defaultOrgSetting.entry_exit_interval = some "30分間隔" ∧
    defaultOrgSetting.enable_area = false ∧
    defaultOrgSetting.enable_group = false ∧
    (∀ s rest, get_org_default_setting (s :: rest) = (s, s :: rest)) ∧
    get_org_default_setting (get_org_default_setting []).2 =
      (defaultOrgSetting, [defaultOrgSetting]) :=
  ⟨rfl, rfl, rfl, rfl, rfl, rfl, fun _ _ => rfl, rfl⟩

/-- C5: if the requesting user's stored `nearby_distance_km` preference is
absent or ≤ 0, the effective radius used by `GET /api/markers/nearby` is
exactly 5.0 km; a stored positive value is used unchanged. -/
theorem effective_radius_default (pref : Option ℚ) :
    (pref = none → effectiveRadius pref = 5) ∧
    (∀ v, pref = some v → v ≤ 0 → effectiveRadius pref = 5) ∧
    (∀ v, pref = some v → 0 < v → effectiveRadius pref = v) ∧
    (∀ cs lat lng cosLat, list_markers_nearby cs lat lng pref cosLat =
      nearbyCustomers cs lat lng (effectiveRadius pref) cosLat) := by
  refine ⟨?_, ?_, ?_, fun _ _ _ _ => rfl⟩
  · rintro rfl; rfl
  · rintro v rfl hv
    simp only [effectiveRadius]
    split_ifs <;> first | rfl | linarith
  · rintro v rfl hv
    simp only [effectiveRadius]
    split_ifs <;> first | rfl | linarith

/-- Witness for C5: a stored radius of −2 km resolves to the 5 km default,
and a stored radius of 7 km is used unchanged. -/
theorem effective_radius_default_witness :
    effectiveRadius (some (-2)) = 5 ∧ effectiveRadius (some 7) = 7 :=
  ⟨(effective_radius_default (some (-2))).2.1 (-2) rfl (by norm_num),
   (effective_radius_default (some 7)).2.2.1 7 rfl (by norm_num)⟩

/-- C4: for a centre `(lat, lng)` and effective radius `r` km, the nearby
filter box is `[lat − r/111, lat + r/111] × [lng − d, lng + d]` with
`d = r / (111 · max 0.1 |cos lat_rad|)`, and exactly the customers whose
latitude and longitude both lie in this closed box are returned
(`cosLat` stands for the value of `math.cos(math.radians(lat))`). -/
theorem nearby_box_membership (cs : List Customer) (lat lng r cosLat : ℚ)
    (c : Customer) :
    c ∈ nearbyCustomers cs lat lng r cosLat ↔
      c ∈ cs ∧
      (lat - r / 111 ≤ c.latitude ∧ c.latitude ≤ lat + r / 111) ∧
      (lng - r / (111 * max (1/10) |cosLat|) ≤ c.longitude ∧
        c.longitude ≤ lng + r / (111 * max (1/10) |cosLat|)) := by
  simp [nearbyCustomers, inBox, nearbyBox, List.mem_filter, and_assoc]

/-- C7: on a `POST /AdminSettings` update that completes, a submitted
`entry_exit_interval` outside the three allowed interval labels is stored as
the 15-minute label, while an allowed value is stored as given. -/
theorem admin_interval_fallback (db : List OrgDefaultSetting)
    (form : AdminSettingsForm) (db' : List OrgDefaultSetting)
    (h : update_admin_settings db form = (.redirectSuccess, db')) :
    db'.head?.map (fun s => s.entry_exit_interval) =
      some (some (if form.entry_exit_interval ∈ allowed_intervals
        then form.entry_exit_interval else "15分間隔")) := by
  unfold update_admin_settings at h
  rcases hpi : parse_int_form form.search_limit with msg | pl
  · rw [hpi] at h; simp at h
  · rw [hpi] at h
    rcases hpf : parse_float_form form.nearby_distance_km with msg | pd
    · rw [hpf] at h; simp at h
    · rw [hpf] at h
      simp only [Prod.mk.injEq] at h
      obtain ⟨-, h2⟩ := h
      subst h2
      rw [replaceHead_head?]
      rfl

def intervalWitnessForm : AdminSettingsForm :=
  ⟨none, none, "99分間隔", none, none⟩

/-- Witness for C7: submitting the out-of-set label 99分間隔 stores the
fallback 15分間隔. -/
theorem admin_interval_fallback_witness :
    (update_admin_settings [] intervalWitnessForm).2.head?.map
      (fun s => s.entry_exit_interval) = some (some "15分間隔") := by
  have h := admin_interval_fallback [] intervalWitnessForm
    (update_admin_settings [] intervalWitnessForm).2 rfl
  have he : (if intervalWitnessForm.entry_exit_interval ∈ allowed_intervals
      then intervalWitnessForm.entry_exit_interval else "15分間隔") = "15分間隔" := by
    decide
  rw [he] at h
  exact h

/-- C8: a `POST /AdminSettings` update whose submitted `search_limit` or
`nearby_distance_km` is non-empty and fails to parse as a number reports a
validation error back to the caller (a redirect carrying the message) and
aborts, leaving the stored `OrgDefaultSetting` rows unchanged. -/
theorem admin_numeric_validation_aborts (db : List OrgDefaultSetting)
    (form : AdminSettingsForm)
    (h : (∃ s, form.search_limit = some s ∧ s ≠ "" ∧ pyInt? s = none) ∨
         (∃ s, form.nearby_distance_km = some s ∧ s ≠ "" ∧ pyFloat? s = none)) :
    ∃ msg, update_admin_settings db form = (.redirectError msg, db) := by
  unfold update_admin_settings
  rcases h with ⟨s, hs, hne, hp⟩ | ⟨s, hs, hne, hp⟩
  · have hpi : parse_int_form form.search_limit =
        .error "検索件数上限は数値で入力してください" := by
      rw [hs]; unfold parse_int_form; simp [hne, hp]
    rw [hpi]
    exact ⟨_, rfl⟩
  · rcases hpi : parse_int_form form.search_limit with msg | pl
    · exact ⟨msg, rfl⟩
    · have hpf : parse_float_form form.nearby_distance_km =
          .error "周辺座標取得距離は数値で入力してください" := by
        rw [hs]; unfold parse_float_form; simp [hne, hp]
      rw [hpf]
      exact ⟨_, rfl⟩

def badNumericForm : AdminSettingsForm :=
  ⟨some "abc", none, "15分間隔", none, none⟩

/-- Witness for C8: `search_limit = "abc"` aborts the update with a redirect
error and leaves the (empty) table unchanged. -/
theorem admin_numeric_validation_aborts_witness :
    ∃ msg, update_admin_settings [] badNumericForm = (.redirectError msg, []) :=
  admin_numeric_validation_aborts [] badNumericForm
    (Or.inl ⟨"abc", rfl, by decide, by decide⟩)

/-- C9: a `PUT /api/user/settings` update overwrites only the fields present
in the payload; every absent field — including fields outside the settings
model such as username, password, origin coordinates and saved search
conditions — keeps its stored value. -/
theorem user_settings_partial_merge (u : MaptechUser)
    (p : MaptechUserSettingsPayload) :
    (update_user_settings u p).username = u.username ∧
    (update_user_settings u p).password = u.password ∧
    (update_user_settings u p).saved_search_conditions = u.saved_search_conditions ∧
    (update_user_settings u p).origin_lat = u.origin_lat ∧
    (update_user_settings u p).origin_lng = u.origin_lng ∧
    (update_user_settings u p).map_display_type_adjust = u.map_display_type_adjust ∧
    (update_user_settings u p).visit_status = u.visit_status ∧
    (update_user_settings u p).past_visit_edit = u.past_visit_edit ∧
    (p.transport_method = none →
      (update_user_settings u p).transport_method = u.transport_method) ∧
    (∀ v, p.transport_method = some v →
      (update_user_settings u p).transport_method = v) ∧
    (p.route_origin = none →
      (update_user_settings u p).route_origin = u.route_origin) ∧
    (∀ v, p.route_origin = some v →
      (update_user_settings u p).route_origin = v) ∧
    (p.map_display_type_main = none →
      (update_user_settings u p).map_display_type_main = u.map_display_type_main) ∧
    (∀ v, p.map_display_type_main = some v →
      (update_user_settings u p).map_display_type_main = v) ∧
    (p.zoom_setting = none →
      (update_user_settings u p).zoom_setting = u.zoom_setting) ∧
    (∀ v, p.zoom_setting = some v →
      (update_user_settings u p).zoom_setting = v) ∧
    (p.nearby_distance_km = none →
      (update_user_settings u p).nearby_distance_km = u.nearby_distance_km) ∧
    (∀ v, p.nearby_distance_km = some v →
      (update_user_settings u p).nearby_distance_km = v) ∧
    (p.marker_cluster_max_zoom = none →
      (update_user_settings u p).marker_cluster_max_zoom = u.marker_cluster_max_zoom) ∧
    (∀ v, p.marker_cluster_max_zoom = some v →
      (update_user_settings u p).marker_cluster_max_zoom = v) ∧
    (p.toll_usage = none →
      (update_user_settings u p).toll_usage = u.toll_usage) ∧
    (∀ v, p.toll_usage = some v →
      (update_user_settings u p).toll_usage = v) := by
  refine ⟨rfl, rfl, rfl, rfl, rfl, rfl, rfl, rfl, ?_, ?_, ?_, ?_, ?_, ?_, ?_, ?_,
    ?_, ?_, ?_, ?_, ?_, ?_⟩ <;>
  · intros
    simp_all [update_user_settings]

/-- The demo user inserted by `seed_if_empty` (src/main.py lines 162-181). -/
def demoUser : MaptechUser :=
  { username := "demo"
    password := "demo"
    transport_method := some "徒歩"
    route_origin := some "東京駅"
    saved_search_conditions := some ""
    marker_cluster_max_zoom := some 12
    zoom_setting := some "オートフォーカス"
    origin_lng := some (139767125 / 1000000)
    origin_lat := some (35681236 / 1000000)
    nearby_distance_km := some 5
    map_display_type_main := some "標準"
    map_display_type_adjust := some "登録・調整"
    toll_usage := some "利用する"
    visit_status := some "未訪問"
    past_visit_edit := some "不可" }

def settingsPatch : MaptechUserSettingsPayload :=
  { transport_method := some (some "車") }

/-- Witness for C9: patching only `transport_method` on the demo user
overwrites that field and keeps username and `route_origin`. -/
theorem user_settings_partial_merge_witness :
    (update_user_settings demoUser settingsPatch).username = demoUser.username ∧
    (update_user_settings demoUser settingsPatch).transport_method = some "車" ∧
    (update_user_settings demoUser settingsPatch).route_origin = demoUser.route_origin := by
  obtain ⟨h1, -, -, -, -, -, -, -, -, ht, hro, -, -, -, -, -, -, -, -, -, -, -⟩ :=
    user_settings_partial_merge demoUser settingsPatch
  exact ⟨h1, ht (some "車") rfl, hro rfl⟩

theorem buildRowsFrom_getElem? (rows : List MarkerColorRow) :
    ∀ (k i : Nat), (buildRowsFrom k rows)[i]? =
      (rows[i]?).map (fun r => buildMarkerRow (k + i) r) := by
  induction rows with
  | nil => intro k i; simp [buildRowsFrom]
  | cons r rest ih =>
    intro k i
    cases i with
    | zero => simp [buildRowsFrom]
    | succ j =>
      have hkj : k + 1 + j = k + (j + 1) := by omega
      simp [buildRowsFrom, ih (k + 1) j, hkj]

/-- C10: in `POST /admin/marker-colors` a submitted row whose priority is 0
(or absent) is stored with priority equal to its 1-based position in the
incoming list; a nonzero submitted priority is preserved as given. -/
theorem marker_priority_zero_replaced (initial : List MarkerColorSettingRow)
    (rows : List MarkerColorRow) (i : Nat) (r : MarkerColorRow)
    (hr : rows[i]? = some r) :
    save_marker_colors initial rows false = .ok (markerInsertRows rows) ∧
    (markerInsertRows rows)[i]? = some (buildMarkerRow i r) ∧
    ((r.priority = none ∨ r.priority = some 0) →
      (buildMarkerRow i r).priority = some ((i : Int) + 1)) ∧
    (∀ p : Int, r.priority = some p → p ≠ 0 →
      (buildMarkerRow i r).priority = some p) := by
  refine ⟨rfl, ?_, ?_, ?_⟩
  · rw [markerInsertRows, buildRowsFrom_getElem? rows 0 i, hr]
    simp
  · rintro (hp | hp) <;> simp [buildMarkerRow, hp]
  · intro p hp hne
    simp [buildMarkerRow, hp, hne]

def zeroPriorityRow : MarkerColorRow :=
  { priority := some 0, color := some "#ffff00" }

/-- Witness for C10: a single submitted row with priority 0 is stored with
priority 1, its 1-based position. -/
theorem marker_priority_zero_replaced_witness :
    save_marker_colors [] [zeroPriorityRow] false =
      .ok (markerInsertRows [zeroPriorityRow]) ∧
    (buildMarkerRow 0 zeroPriorityRow).priority = some 1 := by
  obtain ⟨h1, -, h3, -⟩ :=
    marker_priority_zero_replaced [] [zeroPriorityRow] 0 zeroPriorityRow rfl
  refine ⟨h1, ?_⟩
  simpa using h3 (Or.inr rfl)

def dupUserRow : MaptechUserRow :=
  { username := some "alice", password := some "pw" }

/-- C1 (refuted as stated — the code commits the delete before the insert):
on a database holding the seeded demo user, a `POST /admin/users` payload of
two rows with the same username makes the insert-phase commit fail against
the UNIQUE constraint; the rollback can only undo the insert, so the
committed table ends empty rather than with the pre-operation user set
intact. The final conjunct shows the same two-commit structure in
`POST /admin/marker-colors`: an insert-phase failure there likewise leaves
the empty table, whatever rows existed before. -/
theorem bulk_replace_loses_preexisting_rows :
    save_maptech_users [demoUser] [dupUserRow, dupUserRow] = .failed [] ∧
    ([] : List MaptechUser) ≠ [demoUser] ∧
    (∀ (initial : List MarkerColorSettingRow) (rows : List MarkerColorRow),
      save_marker_colors initial rows true = .failed []) :=
  ⟨rfl, by simp, fun _ _ => rfl⟩

theorem applyFilter_eq (q : List Customer) (f : SearchFilter) :
    applyFilter q f = match survivingPred? f with
      | none => q
      | some p => q.filter p := by
  rcases hcol : customerColumns.lookup f.field with - | ty
  · simp [applyFilter, survivingPred?, hcol]
  · by_cases hv : f.value = ""
    · simp [applyFilter, survivingPred?, hcol, hv]
    · cases ty with
      | intCol =>
        rcases hn : pyInt? f.value with - | n <;>
          simp [applyFilter, survivingPred?, hcol, hv, hn]
      | floatCol =>
        rcases hn : pyFloat? f.value with - | n <;>
          simp [applyFilter, survivingPred?, hcol, hv, hn]
      | strCol => simp [applyFilter, survivingPred?, hcol, hv]

/-- C3: `POST /api/search/customers` returns exactly the customers satisfying
the conjunction of the surviving filter pairs — a pair being dropped without
error when its field is not a declared column, its value is empty, or its
value fails to parse as the column's numeric type — with numeric pairs
comparing by exact equality and textual pairs by case-insensitive substring;
when every pair is dropped the full customer set is returned. -/
theorem search_customers_conjunction (cs : List Customer) (fs : List SearchFilter) :
    search_customers cs fs = searchSpec cs fs ∧
    (fs.filterMap survivingPred? = [] → search_customers cs fs = cs) := by
  have main : ∀ (fs : List SearchFilter) (cs : List Customer),
      search_customers cs fs = searchSpec cs fs := by
    intro fs
    induction fs with
    | nil => intro cs; simp [search_customers, searchSpec]
    | cons f rest ih =>
      intro cs
      have step : search_customers cs (f :: rest) =
          search_customers (applyFilter cs f) rest := rfl
      rw [step, ih, applyFilter_eq]
      rcases hsp : survivingPred? f with - | p
      · simp [searchSpec, List.filterMap_cons, hsp]
      · simp only [searchSpec, List.filterMap_cons, hsp]
        rw [List.filter_filter]
        apply List.filter_congr
        intro c _
        simp [List.all_cons, Bool.and_comm]
  refine ⟨main fs cs, fun hemp => ?_⟩
  rw [main fs cs, searchSpec, hemp]
  simp

def unknownFieldQuery : List SearchFilter := [⟨"bogus", "東京"⟩, ⟨"name", ""⟩]

/-- The seeded customer 東京本社ビル (src/main.py lines 132-139). -/
def tokyoHq : Customer :=
  { id := 1
    name := "東京本社ビル"
    address := "東京都千代田区丸の内1-9-1"
    latitude := 35681236 / 1000000
    longitude := 139767125 / 1000000
    visit_status := some "未訪問"
    segment := some "法人" }

/-- Witness for C3: a query whose pairs are all dropped (unknown field, then
empty value) returns the unfiltered customer set. -/
theorem search_customers_conjunction_witness :
    search_customers [tokyoHq] unknownFieldQuery = [tokyoHq] :=
  (search_customers_conjunction [tokyoHq] unknownFieldQuery).2 rfl

theorem ruleLE_refl (a : MarkerRule) : ruleLE a a = true := by
  unfold ruleLE
  rcases a.priority with - | p <;> simp

theorem ruleLE_trans (a b c : MarkerRule) (hab : ruleLE a b = true)
    (hbc : ruleLE b c = true) : ruleLE a c = true := by
  unfold ruleLE at *
  rcases ha : a.priority with - | p <;> rcases hb : b.priority with - | q <;>
    rcases hc : c.priority with - | s <;> simp_all <;> omega

theorem ruleLE_total (a b : MarkerRule) : (ruleLE a b || ruleLE b a) = true := by
  unfold ruleLE
  rcases a.priority with - | p <;> rcases b.priority with - | q <;> simp <;> omega

theorem find?_min_of_pairwise {α : Type} {le : α → α → Bool} {p : α → Bool}
    (hrefl : ∀ a, le a a = true) :
    ∀ {l : List α} {r : α}, List.Pairwise (fun a b => le a b = true) l →
      l.find? p = some r → ∀ r' ∈ l, p r' = true → le r r' = true := by
  intro l
  induction l with
  | nil => intro r _ hf; simp at hf
  | cons a t ih =>
    intro r hp hf r' hmem hpr'
    rw [List.pairwise_cons] at hp
    by_cases hpa : p a = true
    · rw [List.find?_cons_of_pos _ hpa] at hf
      have har : a = r := by injection hf
      rcases List.mem_cons.mp hmem with h' | hmem'
      · rw [← har, h']; exact hrefl a
      · rw [← har]; exact hp.1 r' hmem'
    · rw [List.find?_cons_of_neg _ hpa] at hf
      rcases List.mem_cons.mp hmem with rfl | hmem'
      · exact absurd hpr' hpa
      · exact ih hp.2 hf r' hmem' hpr'

/-- C2: the engine resolves a record's marker to the color and marker style
of the first candidate rule — candidates being the rules whose target names
the record's kind and whose condition matches — in ascending priority order
with nulls last and ties broken by id: a resolved pair belongs to a matching
rule that is minimal in that order among all matching rules, and no pair is
resolved exactly when no rule matches. -/
theorem resolve_first_matching_rule (R : List MarkerRule) (x : MarkerRecord) :
    (resolveMarker R x = none ↔ ∀ r ∈ R, ruleCandidate r x = false) ∧
    (∀ c s, resolveMarker R x = some (c, s) →
      ∃ r ∈ R, ruleCandidate r x = true ∧ r.color = c ∧ r.marker_style = s ∧
        ∀ r' ∈ R, ruleCandidate r' x = true → ruleLE r r' = true) := by
  have hperm := List.mergeSort_perm R ruleLE
  have hmem : ∀ r : MarkerRule, r ∈ sortedRules R ↔ r ∈ R := fun r => hperm.mem_iff
  constructor
  · have hiff : resolveMarker R x = none ↔
        (sortedRules R).find? (fun r => ruleCandidate r x) = none := by
      unfold resolveMarker
      cases (sortedRules R).find? (fun r => ruleCandidate r x) <;> simp
    rw [hiff, List.find?_eq_none]
    constructor
    · intro h r hr
      have := h r ((hmem r).mpr hr)
      simpa using this
    · intro h r hr
      have := h r ((hmem r).mp hr)
      simpa using this
  · intro c s h
    unfold resolveMarker at h
    rcases hf : (sortedRules R).find? (fun r => ruleCandidate r x) with - | r
    · rw [hf] at h; simp at h
    · rw [hf, Option.map_some'] at h
      injection h with h
      have hc : r.color = c := congrArg Prod.fst h
      have hs : r.marker_style = s := congrArg Prod.snd h
      refine ⟨r, (hmem r).mp (List.mem_of_find?_eq_some hf),
        (by simpa using List.find?_some hf), hc, hs, ?_⟩
      intro r' hr' hcand
      have hsorted : List.Pairwise (fun a b => ruleLE a b = true) (sortedRules R) :=
        List.sorted_mergeSort ruleLE_trans ruleLE_total R
      exact find?_min_of_pairwise ruleLE_refl hsorted hf r' ((hmem r').mpr hr') hcand

/-- The first seeded marker-color rule (src/main.py line 198). -/
def saitamaRule : MarkerRule :=
  { id := 1
    priority := some 1
    target := some "顧客情報"
    field_name := some "address"
    match_value := some "さいたま市"
    match_condition := some "含む"
    color := some "#ffff00"
    marker_style := some "家" }

def saitamaCustomer : MarkerRecord :=
  ⟨.customer, [("address", "埼玉県さいたま市大宮区1-1")]⟩

/-- Witness for C2: against the single seeded さいたま市-contains rule, a
customer record whose address contains さいたま市 resolves to that rule's
color and style, and the rule is minimal among matching rules. -/
theorem resolve_first_matching_rule_witness :
    ∃ r ∈ [saitamaRule], ruleCandidate r saitamaCustomer = true ∧
      r.color = some "#ffff00" ∧ r.marker_style = some "家" ∧
      ∀ r' ∈ [saitamaRule], ruleCandidate r' saitamaCustomer = true →
        ruleLE r r' = true := by
  refine (resolve_first_matching_rule [saitamaRule] saitamaCustomer).2
    (some "#ffff00") (some "家") ?_
  rw [resolveMarker, sortedRules, List.mergeSort_singleton,
    List.find?_cons_of_pos _ (by decide)]
  rfl

end Maptech
